import Mathlib

/-!
Verification of the context-propagating tool dispatcher and its collaborators
from the `genai-training-track` repository.

The embedding models:
* `process_tool_call` (src/my_agent/containers.py) — the dispatcher that
  attaches the caller's `deps` value under the reserved metadata key `"deps"`
  and forwards the call to the underlying tool-calling mechanism;
* `echo_deps` (src/my_mcp/mcp_with_deps.py) — a context-aware tool that reads
  `deps` from the request metadata via an unguarded attribute access;
* `make_sleeper_request`, `get_user`, `get_user_leagues`
  (src/my_mcp/sleeper_fantasy.py) — tools wrapping an upstream HTTP provider;
* `chat` (src/my_api/my_agent_api.py) — the POST /chat endpoint.

Python values flowing through these functions are modelled by the inductive
`Value` (JSON-like data plus Python `None`); Python exceptions by `Err`;
fallible code by `Except`; the informational log a tool emits by an explicit
`List String` component of the tool outcome.
-/

namespace ToolBridge

/-- JSON-like dynamic values as handled by the Python code; `vnull` is
Python `None` (also the decoded form of JSON `null`). -/
inductive Value where
  | vnull : Value
  | vint : Int → Value
  | vstr : String → Value
  | vlist : List Value → Value
  | vdict : List (String × Value) → Value
deriving Repr, Inhabited

/-- Python exceptions observable in the modelled code. -/
inductive Err where
  | toolNotFound : String → Err
  | attributeError : String → Err
  | exn : String → Err
deriving Repr, DecidableEq, Inhabited

/-- A tool-call argument mapping (Python `dict[str, Any]`). -/
abbrev Args := List (String × Value)

/-- A metadata envelope (Python `dict[str, Any]`), e.g. `{'deps': ctx.deps}`. -/
abbrev Meta := List (String × Value)

/-- Outcome of running a tool: the informational log entries it emitted,
paired with either its return value or the exception it raised. -/
abbrev ToolOutcome := List String × Except Err Value

/-- A tool implementation: receives the argument mapping and the (possibly
absent) request metadata. -/
abbrev Tool := Args → Option Meta → ToolOutcome

/-- The slice of pydantic-ai `RunContext[int]` used by the dispatcher:
only its `deps` field is read. The demo uses an `int`, but the dispatcher
treats it as opaque, so we keep it a `Value`. -/
structure RunContext where
  deps : Value
deriving Repr

/-- The metadata envelope the dispatcher builds: `{'deps': ctx.deps}`
(src/my_agent/containers.py line 36). -/
def envelope (deps : Value) : Meta := [("deps", deps)]

/-- Dispatcher `process_tool_call` from src/my_agent/containers.py (lines 29–36):

    async def process_tool_call(ctx, call_tool, name, tool_args):
        return await call_tool(name, tool_args, \x7b'deps': ctx.deps\x7d)

It forwards `name` and `tool_args` unchanged to the supplied tool-calling
mechanism `call_tool`, together with the envelope, and returns the
mechanism's outcome unmodified. -/
def process_tool_call (call_tool : String → Args → Meta → ToolOutcome)
    (ctx : RunContext) (name : String) (tool_args : Args) : ToolOutcome :=
  call_tool name tool_args (envelope ctx.deps)

/-- Modelled from the spec: the underlying tool-calling mechanism
(`CallToolFunc`, supplied by the agent framework, not part of src/). Per the
spec it resolves `tool_name` in the tool registry — failing with a
`ToolNotFound` condition when the name is unregistered — and otherwise runs
the resolved tool with the arguments and the metadata envelope. -/
def callToolMech (registry : List (String × Tool)) (name : String)
    (args : Args) (meta : Meta) : ToolOutcome :=
  match registry.lookup name with
  | none => ([], .error (.toolNotFound name))
  | some t => t args (some meta)

/-- Python `getattr(meta, attr)` on the request metadata object: `none`
models a raised `AttributeError` (the metadata object is absent, or lacks
the attribute). -/
def metaGetattr (meta : Option Meta) (attr : String) : Option Value :=
  match meta with
  | none => none
  | some m => m.lookup attr

/-- Tool `echo_deps` from src/my_mcp/mcp_with_deps.py (lines 7–20):

    async def echo_deps(ctx):
        await ctx.info('This is an info message')
        deps = getattr(ctx.request_context.meta, 'deps')
        return \x7b'echo': 'This is an echo message', 'deps': deps\x7d

The info log entry is emitted before the attribute access, so it appears in
the log on both the normal and the raising path; the unguarded `getattr`
raises `AttributeError` when the metadata lacks `deps`. -/
def echo_deps (meta : Option Meta) : ToolOutcome :=
  (["This is an info message"],
   match metaGetattr meta "deps" with
   | some d => .ok (.vdict [("echo", .vstr "This is an echo message"), ("deps", d)])
   | none => .error (.attributeError "deps"))

/-- The tool `echo_deps` packaged as a registry entry: the tool takes no arguments of
its own, only the context. -/
def echoTool : Tool := fun _ meta => echo_deps meta

/-- The registry of the deps-demo MCP server: it exposes exactly the
`echo_deps` tool. -/
def echoRegistry : List (String × Tool) := [("echo_deps", echoTool)]

/-! ## Sleeper fantasy tools (src/my_mcp/sleeper_fantasy.py) -/

/-- Constant `SLEEPER_API_BASE` from src/my_mcp/sleeper_fantasy.py. -/
def SLEEPER_API_BASE : String := "https://api.sleeper.app/v1"

mutual

/-- Python `str()` rendering of a dynamic value, as performed by the
f-string interpolation in the formatted tool outputs. -/
def pyStr : Value → String
  | .vnull => "None"
  | .vint n => toString n
  | .vstr s => s
  | .vlist xs => "[" ++ String.intercalate ", " (pyReprList xs) ++ "]"
  | .vdict fs => "\x7b" ++ String.intercalate ", " (pyReprDict fs) ++ "\x7d"

/-- Python `repr()` rendering, used for elements nested inside containers. -/
def pyRepr : Value → String
  | .vstr s => "\x27" ++ s ++ "\x27"
  | .vnull => pyStr .vnull
  | .vint n => pyStr (.vint n)
  | .vlist xs => pyStr (.vlist xs)
  | .vdict fs => pyStr (.vdict fs)

/-- Python `repr()` applied elementwise to a Python list. -/
def pyReprList : List Value → List String
  | [] => []
  | v :: vs => pyRepr v :: pyReprList vs

/-- Python `repr()` applied to each key/value entry of a Python dict. -/
def pyReprDict : List (String × Value) → List String
  | [] => []
  | (k, v) :: fs => ("\x27" ++ k ++ "\x27: " ++ pyRepr v) :: pyReprDict fs

end

/-- Python `dict.get(key, default)` on a dict's field list. -/
def dictGetD (fields : List (String × Value)) (key : String)
    (default : Value) : Value :=
  match fields.lookup key with
  | some v => v
  | none => default

/-- Python `data.get(key, default)`: succeeds only when `data` is a dict
(any other receiver raises `AttributeError`, since only `dict` has `get`). -/
def dictGet (data : Value) (key : String) (default : Value) : Except Err Value :=
  match data with
  | .vdict fields => .ok (dictGetD fields key default)
  | _ => .error (.attributeError "get")

/-- Request helper `make_sleeper_request` from src/my_mcp/sleeper_fantasy.py (lines 16–24):

    async def make_sleeper_request(url):
        async with httpx.AsyncClient() as client:
            try:
                response = await client.get(url, timeout=30.0)
                response.raise_for_status()
                return response.json()
            except Exception as e:
                return None

`net` models the whole guarded block (HTTP GET, status check, JSON decode):
it yields the decoded body, or the exception any of those steps raised.
Every exception is caught and turned into `None` (`vnull`); a JSON `null`
body also decodes to `None`. -/
def make_sleeper_request (net : String → Except Err Value) (url : String) : Value :=
  match net url with
  | .ok v => v
  | .error _ => .vnull

/-- The formatted user-information block of `get_user` (the f-string at the
end of the function, including its `data.get` accesses). -/
def userInfoStr (data : Value) : Except Err String := do
  let uid ← dictGet data "user_id" (.vstr "N/A")
  let uname ← dictGet data "username" (.vstr "N/A")
  let dname ← dictGet data "display_name" (.vstr "N/A")
  let avatar ← dictGet data "avatar" (.vstr "N/A")
  .ok ("\nUser ID: " ++ pyStr uid ++
       "\nUsername: " ++ pyStr uname ++
       "\nDisplay Name: " ++ pyStr dname ++
       "\nAvatar ID: " ++ pyStr avatar ++ "\n")

/-- Tool `get_user` from src/my_mcp/sleeper_fantasy.py (lines 26–44). Only
`data is None` is guarded; the subsequent `data.get(...)` calls assume a
dict receiver. -/
def get_user (net : String → Except Err Value) (username : String) :
    Except Err String :=
  let url := SLEEPER_API_BASE ++ "/user/" ++ username
  let data := make_sleeper_request net url
  match data with
  | .vnull => .ok ("Unable to fetch user information for username: " ++ username)
  | _ => userInfoStr data

/-- The per-league block of `get_user_leagues` (the f-string built inside
its loop). -/
def leagueInfoStr (league : Value) : Except Err String := do
  let nm ← dictGet league "name" (.vstr "Unknown")
  let lid ← dictGet league "league_id" (.vstr "N/A")
  let st ← dictGet league "status" (.vstr "N/A")
  let tr ← dictGet league "total_rosters" (.vstr "N/A")
  let se ← dictGet league "season" (.vstr "N/A")
  let did ← dictGet league "draft_id" (.vstr "N/A")
  .ok ("\nLeague Name: " ++ pyStr nm ++
       "\nLeague ID: " ++ pyStr lid ++
       "\nStatus: " ++ pyStr st ++
       "\nTotal Rosters: " ++ pyStr tr ++
       "\nSeason: " ++ pyStr se ++
       "\nDraft ID: " ++ pyStr did ++ "\n")

/-- Tool `get_user_leagues` from src/my_mcp/sleeper_fantasy.py (lines 46–74).
Unlike `get_user`, its guard is `data is None or not isinstance(data, list)`,
so any non-list success value also takes the error-string branch. -/
def get_user_leagues (net : String → Except Err Value) (user_id : String)
    (sport : String) (season : String) : Except Err String :=
  let url := SLEEPER_API_BASE ++ "/user/" ++ user_id ++ "/leagues/" ++
             sport ++ "/" ++ season
  let data := make_sleeper_request net url
  match data with
  | .vlist leagues =>
      if leagues.length = 0 then
        .ok ("No leagues found for user_id: " ++ user_id ++ " in " ++
             sport ++ " " ++ season)
      else do
        let infos ← leagues.mapM leagueInfoStr
        .ok (String.intercalate "\n---\n" infos)
  | _ => .ok ("Unable to fetch leagues for user_id: " ++ user_id)

/-! ## Chat API boundary (src/my_api/my_agent_api.py) -/

/-- A FastAPI `HTTPException` as raised by the chat endpoint. -/
structure HTTPException where
  status_code : Nat
  detail : String
deriving Repr, DecidableEq

/-- Endpoint `chat` from src/my_api/my_agent_api.py (lines 41–48):

    @app.post("/chat")
    def chat(request):
        try:
            response = myagent.agent.run_sync(request.query)
            return \x7b"response": response.output\x7d
        except Exception as e:
            raise HTTPException(status_code=500, detail=str(e))

`run_sync` models the agent invocation: `.ok output` when it succeeds with
response string `output`, `.error e` when it raises an exception whose
string form is `e`. -/
def chat (run_sync : String → Except String String) (query : String) :
    Except HTTPException Value :=
  match run_sync query with
  | .ok output => .ok (.vdict [("response", .vstr output)])
  | .error e => .error ⟨500, e⟩

/-! ## Claims about the dispatcher -/

/-- C1: for every registered `tool_name`, every argument mapping and every
session context, `process_tool_call` returns exactly the outcome of invoking
the resolved tool directly with the same arguments and with the session
context accessible under the metadata key `deps`; name, arguments and the
tool outcome pass through unmodified. -/
theorem C1_dispatch_equals_direct_tool_call
    (registry : List (String × Tool)) (ctx : RunContext) (name : String)
    (args : Args) (t : Tool) (hreg : registry.lookup name = some t) :
    process_tool_call (callToolMech registry) ctx name args
        = t args (some (envelope ctx.deps)) ∧
    (envelope ctx.deps).lookup "deps" = some ctx.deps := by
  constructor
  · simp [process_tool_call, callToolMech, hreg]
  · simp [envelope]

/-- Witness for C1 at the concrete registry of the deps server, tool
`echo_deps`, empty arguments and session context `42`. -/
theorem C1_dispatch_equals_direct_tool_call_witness :
    process_tool_call (callToolMech echoRegistry) ⟨.vint 42⟩ "echo_deps" []
        = echoTool [] (some (envelope (.vint 42))) ∧
    (envelope (.vint 42)).lookup "deps" = some (.vint 42) :=
  C1_dispatch_equals_direct_tool_call echoRegistry ⟨.vint 42⟩ "echo_deps" []
    echoTool rfl

/-- C2: for every session context value (the `vnull` case included), the
envelope contains the key `deps` bound to exactly the supplied value, and
the envelope construction is uniform in the context (mapping the context
commutes with building the envelope), so the dispatcher never interprets or
mutates it. -/
theorem C2_envelope_relays_context (deps : Value) (f : Value → Value) :
    (envelope deps).lookup "deps" = some deps ∧
    envelope (f deps) = (envelope deps).map (fun p => (p.1, f p.2)) := by
  constructor <;> simp [envelope]

/-- C3: dispatching `echo_deps` with empty arguments and session context `42`
yields exactly the dictionary with the echo message and `deps = 42`; the only
other observable is the informational log entry, which leaves the result
component untouched. -/
theorem C3_echo_deps_dispatch_scenario :
    process_tool_call (callToolMech echoRegistry) ⟨.vint 42⟩ "echo_deps" []
      = (["This is an info message"],
         .ok (.vdict [("echo", .vstr "This is an echo message"),
                      ("deps", .vint 42)])) := rfl

/-- C4: for every argument mapping and session context, when `tool_name` does
not resolve in the registry the dispatch fails with the `ToolNotFound`
condition naming that tool, returned to the caller rather than swallowed or
replaced. -/
theorem C4_unknown_tool_fails_tool_not_found
    (registry : List (String × Tool)) (ctx : RunContext) (name : String)
    (args : Args) (hmiss : registry.lookup name = none) :
    process_tool_call (callToolMech registry) ctx name args
      = ([], .error (.toolNotFound name)) := by
  simp [process_tool_call, callToolMech, hmiss]

/-- Witness for C4 at the scenario of the spec:
`dispatch("unknown_tool", \x7b\x7d, None)`. -/
theorem C4_unknown_tool_fails_tool_not_found_witness :
    process_tool_call (callToolMech echoRegistry) ⟨.vnull⟩ "unknown_tool" []
      = ([], .error (.toolNotFound "unknown_tool")) :=
  C4_unknown_tool_fails_tool_not_found echoRegistry ⟨.vnull⟩ "unknown_tool" []
    rfl

/-- C5: whenever the underlying tool mechanism (or the tool it runs) fails,
the dispatcher returns that very failure — same error value, same emitted
log — with no retry, no recovery and no rewrapping into another error kind. -/
theorem C5_mechanism_failure_propagates_unchanged
    (call_tool : String → Args → Meta → ToolOutcome) (ctx : RunContext)
    (name : String) (args : Args) (log : List String) (e : Err)
    (hfail : call_tool name args (envelope ctx.deps) = (log, .error e)) :
    process_tool_call call_tool ctx name args = (log, .error e) := by
  simpa [process_tool_call] using hfail

/-- A tool mechanism that always fails, standing in for a tool raising
during its own execution. -/
def failMech : String → Args → Meta → ToolOutcome :=
  fun _ _ _ => ([], .error (.exn "boom"))

/-- Witness for C5 at a concrete failing mechanism. -/
theorem C5_mechanism_failure_propagates_unchanged_witness :
    process_tool_call failMech ⟨.vnull⟩ "echo_deps" []
      = ([], .error (.exn "boom")) :=
  C5_mechanism_failure_propagates_unchanged failMech ⟨.vnull⟩ "echo_deps" []
    [] (.exn "boom") rfl

/-- C6: any two dispatch invocations are independent — each one's result is
determined by its own context alone: each observes exactly its own `deps`
value inside the tool execution, and when the two contexts differ the two
tool executions observe different values (no cross-talk, no shared cache). -/
theorem C6_dispatches_carry_own_context (d₁ d₂ : Value) (a₁ a₂ : Args) :
    (process_tool_call (callToolMech echoRegistry) ⟨d₁⟩ "echo_deps" a₁).2
      = .ok (.vdict [("echo", .vstr "This is an echo message"), ("deps", d₁)]) ∧
    (process_tool_call (callToolMech echoRegistry) ⟨d₂⟩ "echo_deps" a₂).2
      = .ok (.vdict [("echo", .vstr "This is an echo message"), ("deps", d₂)]) ∧
    (d₁ ≠ d₂ →
      (process_tool_call (callToolMech echoRegistry) ⟨d₁⟩ "echo_deps" a₁).2
        ≠ (process_tool_call (callToolMech echoRegistry) ⟨d₂⟩ "echo_deps" a₂).2) := by
  refine ⟨rfl, rfl, fun hne heq => hne ?_⟩
  simpa [process_tool_call, callToolMech, echoRegistry, echoTool, echo_deps,
         metaGetattr, envelope] using heq

/-- Witness for C6 at the contexts `1` and `42` of the spec scenario. -/
theorem C6_dispatches_carry_own_context_witness :
    (process_tool_call (callToolMech echoRegistry) ⟨.vint 1⟩ "echo_deps" []).2
      ≠ (process_tool_call (callToolMech echoRegistry) ⟨.vint 42⟩ "echo_deps" []).2 :=
  (C6_dispatches_carry_own_context (.vint 1) (.vint 42) [] []).2.2 (by simp)

/-- C7: for every query, the chat endpoint either succeeds with a body
carrying the agent's response string, or fails with status 500 and the
exception's string form as detail — and these are the only two outcomes. -/
theorem C7_chat_success_or_500
    (run_sync : String → Except String String) (query : String) :
    (∃ output, run_sync query = .ok output ∧
        chat run_sync query = .ok (.vdict [("response", .vstr output)])) ∨
    (∃ e, run_sync query = .error e ∧
        chat run_sync query = .error ⟨500, e⟩) := by
  cases h : run_sync query with
  | ok output => exact .inl ⟨output, rfl, by simp [chat, h]⟩
  | error e => exact .inr ⟨e, rfl, by simp [chat, h]⟩

/-- The formatted user block never coincides with the unable-to-fetch error
string: the former starts with a newline, the latter with the letter U. -/
theorem userInfo_ne_unable (a b c d u : String) :
    "\nUser ID: " ++ a ++ "\nUsername: " ++ b ++ "\nDisplay Name: " ++ c ++
      "\nAvatar ID: " ++ d ++ "\n"
    ≠ "Unable to fetch user information for username: " ++ u := by
  intro h
  have hdata := congrArg String.data h
  simp only [String.data_append] at hdata
  simp only [List.cons_append] at hdata
  injection hdata with hhead _
  exact absurd hhead (by decide)

/-- C8 counterexample: a Sleeper request that succeeds with a JSON array
(allowed by the annotated return type of `make_sleeper_request`) makes
`get_user` raise `AttributeError` at `data.get`, instead of returning either
the formatted string or the error string. -/
theorem C8_get_user_raises_on_list_response :
    get_user (fun _ => .ok (.vlist [])) "alice"
      = .error (.attributeError "get") := rfl

/-- C8 amended: `get_user` returns the formatted user-information string when
the request succeeds with a JSON object, returns the error string exactly
when the request result is `None` (request failed or body was JSON null),
and raises `AttributeError` when a successful response is not an object. -/
theorem C8_amended_get_user_cases
    (net : String → Except Err Value) (username : String) :
    match make_sleeper_request net (SLEEPER_API_BASE ++ "/user/" ++ username) with
    | .vnull => get_user net username
        = .ok ("Unable to fetch user information for username: " ++ username)
    | .vdict fields => ∃ s, userInfoStr (.vdict fields) = .ok s ∧
        get_user net username = .ok s
    | _ => get_user net username = .error (.attributeError "get") := by
  cases h : make_sleeper_request net (SLEEPER_API_BASE ++ "/user/" ++ username) with
  | vnull => simp [get_user, h]
  | vint n => simp only [get_user, h]; rfl
  | vstr s => simp only [get_user, h]; rfl
  | vlist xs => simp only [get_user, h]; rfl
  | vdict fields => exact ⟨_, rfl, by simp only [get_user, h]; rfl⟩

/-- C9 counterexample: a request succeeding with a JSON object (so the result
is not `None`) still sends `get_user_leagues` into its error branch, because
its guard also rejects non-list shapes — refuting that every Sleeper tool's
error branch is reached exactly when the result is `None`. -/
theorem C9_leagues_error_branch_without_null :
    make_sleeper_request (fun _ => .ok (.vdict []))
        (SLEEPER_API_BASE ++ "/user/u1/leagues/nfl/2024") ≠ .vnull ∧
    get_user_leagues (fun _ => .ok (.vdict [])) "u1" "nfl" "2024"
      = .ok ("Unable to fetch leagues for user_id: u1") :=
  ⟨by simp [make_sleeper_request], rfl⟩

/-- C9 amended: `make_sleeper_request` is total over failures — for every URL
it either returns the value the guarded request produced or returns `None`,
never propagating an exception; `get_user`'s error branch is reached exactly
when the result is `None`, while shape-guarded tools such as
`get_user_leagues` reach their error branch also on non-`None` results of
the wrong shape. -/
theorem C9_amended_request_totality
    (net : String → Except Err Value) (url username : String) :
    ((∃ v, net url = .ok v ∧ make_sleeper_request net url = v) ∨
     ((∃ e, net url = .error e) ∧ make_sleeper_request net url = .vnull)) ∧
    (get_user net username
        = .ok ("Unable to fetch user information for username: " ++ username)
      ↔ make_sleeper_request net (SLEEPER_API_BASE ++ "/user/" ++ username)
          = .vnull) := by
  constructor
  · cases h : net url with
    | ok v => exact .inl ⟨v, rfl, by simp [make_sleeper_request, h]⟩
    | error e => exact .inr ⟨⟨e, rfl⟩, by simp [make_sleeper_request, h]⟩
  · constructor
    · intro h
      cases hd : make_sleeper_request net (SLEEPER_API_BASE ++ "/user/" ++ username) with
      | vnull => rfl
      | vint n => rw [get_user] at h; simp only [hd] at h; exact Except.noConfusion h
      | vstr s => rw [get_user] at h; simp only [hd] at h; exact Except.noConfusion h
      | vlist xs => rw [get_user] at h; simp only [hd] at h; exact Except.noConfusion h
      | vdict fields =>
          rw [get_user] at h
          simp only [hd] at h
          have hs : userInfoStr (.vdict fields)
              = .ok ("\nUser ID: "
                     ++ pyStr (dictGetD fields "user_id" (.vstr "N/A")) ++
                     "\nUsername: "
                     ++ pyStr (dictGetD fields "username" (.vstr "N/A")) ++
                     "\nDisplay Name: "
                     ++ pyStr (dictGetD fields "display_name" (.vstr "N/A")) ++
                     "\nAvatar ID: "
                     ++ pyStr (dictGetD fields "avatar" (.vstr "N/A")) ++ "\n") :=
            rfl
          rw [hs] at h
          exact absurd (Except.ok.inj h) (userInfo_ne_unable _ _ _ _ _)
    · intro h
      simp [get_user, h]

/-- Witness for C9 amended: a request that always times out yields `None`,
and `get_user` then returns the error string. -/
theorem C9_amended_request_totality_witness :
    make_sleeper_request (fun _ => .error (.exn "timeout")) "u" = .vnull ∧
    get_user (fun _ => .error (.exn "timeout")) "alice"
      = .ok ("Unable to fetch user information for username: " ++ "alice") :=
  ⟨rfl,
   (C9_amended_request_totality (fun _ => .error (.exn "timeout"))
      "u" "alice").2.mpr rfl⟩

/-- C10: `echo_deps` returns normally if and only if the request metadata
carries a `deps` attribute; when the metadata lacks it (in particular when
the tool is invoked without the context-attaching dispatcher), the tool
raises `AttributeError` rather than substituting a default. -/
theorem C10_echo_deps_requires_deps (meta : Option Meta) :
    ((∃ r, (echo_deps meta).2 = .ok r)
        ↔ ∃ d, metaGetattr meta "deps" = some d) ∧
    (metaGetattr meta "deps" = none →
      (echo_deps meta).2 = .error (.attributeError "deps")) ∧
    (∀ d, metaGetattr meta "deps" = some d →
      (echo_deps meta).2
        = .ok (.vdict [("echo", .vstr "This is an echo message"),
                       ("deps", d)])) := by
  cases h : metaGetattr meta "deps" with
  | none =>
      refine ⟨?_, fun _ => ?_, fun d hd => Option.noConfusion hd⟩
      · simp [echo_deps, h]
      · simp [echo_deps, h]
  | some d =>
      refine ⟨?_, fun hn => Option.noConfusion hn, fun e he => ?_⟩
      · simp [echo_deps, h]
      · have hde : d = e := Option.some.inj he
        subst hde
        simp [echo_deps, h]

/-- Witness for C10: metadata without `deps` raises; metadata with `deps`
returns the echo dictionary. -/
theorem C10_echo_deps_requires_deps_witness :
    (echo_deps (some [])).2 = .error (.attributeError "deps") ∧
    (echo_deps (some [("deps", .vint 7)])).2
      = .ok (.vdict [("echo", .vstr "This is an echo message"),
                     ("deps", .vint 7)]) :=
  ⟨(C10_echo_deps_requires_deps (some [])).2.1 rfl,
   (C10_echo_deps_requires_deps (some [("deps", .vint 7)])).2.2 (.vint 7) rfl⟩

end ToolBridge
